import Mathlib

/-!
Shallow embedding of `lib/aws-stack.ts` from the AWS-CDK-Hybrid-Cloud-Template
repository, together with theorems settling the specification claims about it.

The stack constructor reads environment variables (a string-keyed parameter
set), resolves them through the helpers `env`, `envBool`, `envInt` and
`parseInstanceType`, and assembles the resource graph: VPC, web security
group, EC2 instance with an elastic IP, a site-to-site VPN, an optional RDS
MariaDB group, CloudFormation outputs and an optional Route 53 group.
-/

namespace HybridStack

/-- A `ParameterSet`: the process environment, modelled as an association list
from variable name to raw string value.  `process.env[name]` is `getEnv`. -/
abbrev Params := List (String × String)

/-- Model of `process.env[name]`: the first binding of `name`, if any. -/
def getEnv (p : Params) (name : String) : Option String :=
  (p.find? (fun kv => kv.1 == name)).map (fun kv => kv.2)

/-- The two error kinds of the stack: `missingParameter name` models the
`throw new Error("Falta la variable de entorno requerida: " ++ name)` in the
`env` helper, and `invalidConfiguration msg` models the
`throw new Error(msg)` raised by the ENABLE_ROUTE53 domain check. -/
inductive StackError where
  | missingParameter (name : String)
  | invalidConfiguration (msg : String)
deriving Repr, DecidableEq

/-- Helper `env(name, fallback?)` from the source: a value that is absent
(`undefined`/`null`) or the empty string falls back when a fallback was
given and otherwise throws; any other value is returned unchanged. -/
def env (p : Params) (name : String) (fallback : Option String) :
    Except StackError String :=
  match getEnv p name, fallback with
  | none, some f => .ok f
  | none, none => .error (.missingParameter name)
  | some v, fb =>
    if v = "" then
      match fb with
      | some f => .ok f
      | none => .error (.missingParameter name)
    else .ok v

/-- ASCII lower-casing of one character (`String.prototype.toLowerCase` on
the ASCII range, the only range the option tokens use). -/
def lowerChar (c : Char) : Char :=
  if 'A' ≤ c ∧ c ≤ 'Z' then Char.ofNat (c.toNat + 32) else c

/-- ASCII upper-casing of one character (`String.prototype.toUpperCase` on
the ASCII range). -/
def upperChar (c : Char) : Char :=
  if 'a' ≤ c ∧ c ≤ 'z' then Char.ofNat (c.toNat - 32) else c

/-- Model of `s.toLowerCase()` over the ASCII range. -/
def toLowerStr (s : String) : String := ⟨s.data.map lowerChar⟩

/-- Model of `s.toUpperCase()` over the ASCII range. -/
def toUpperStr (s : String) : String := ⟨s.data.map upperChar⟩

/-- Model of `s.trim()`: strip leading and trailing whitespace. -/
def trimStr (s : String) : String :=
  ⟨((s.data.dropWhile Char.isWhitespace).reverse.dropWhile
      Char.isWhitespace).reverse⟩

/-- Helper `envBool(name, fallback = false)` from the source: absent
(`undefined`) resolves to the fallback; a present value resolves to `true`
iff its lower-casing is one of the fixed truthy tokens. -/
def envBool (p : Params) (name : String) (fallback : Bool) : Bool :=
  match getEnv p name with
  | none => fallback
  | some v => ["1", "true", "yes", "y"].contains (toLowerStr v)

/-- Digit run to a natural number, most significant first. -/
def digitsVal (ds : List Char) : Nat :=
  ds.foldl (fun acc c => acc * 10 + (c.toNat - ('0').toNat)) 0

/-- JavaScript `parseInt(s, 10)`: skip leading whitespace, read an optional
sign, then the longest run of leading decimal digits; `none` models `NaN`
(no leading digits at all); any trailing characters are ignored. -/
def parseIntJS (s : String) : Option Int :=
  let cs := s.data.dropWhile Char.isWhitespace
  let sign : Int := if cs.head? = some '-' then -1 else 1
  let rest :=
    if cs.head? = some '+' ∨ cs.head? = some '-' then cs.tail else cs
  let ds := rest.takeWhile Char.isDigit
  if ds.isEmpty then none
  else some (sign * (digitsVal ds : Int))

/-- Helper `envInt(name, fallback)` from the source: absent resolves to the
fallback; a present value goes through `parseInt(v, 10)` and falls back
exactly when that yields `NaN`. -/
def envInt (p : Params) (name : String) (fallback : Int) : Int :=
  match getEnv p name with
  | none => fallback
  | some v =>
    match parseIntJS v with
    | none => fallback
    | some n => n

/-- The digit part of an integer-shaped string: the characters after an
optional leading sign. -/
def specIntegerDigits (s : String) : List Char :=
  if s.data.head? = some '+' ∨ s.data.head? = some '-' then s.data.tail
  else s.data

/-- Modelled from the spec's words (the C9 comparison baseline): a raw
value "parseable as an integer" is an optional sign followed by one or
more decimal digits and nothing else. -/
def specIntegerString (s : String) : Bool :=
  !(specIntegerDigits s).isEmpty && (specIntegerDigits s).all Char.isDigit

/-- The integer an integer-shaped string denotes. -/
def specIntegerValue (s : String) : Int :=
  (if s.data.head? = some '-' then -1 else 1) *
    (digitsVal (specIntegerDigits s) : Int)

/-- An EC2 instance shape: an `InstanceClass` name paired with an
`InstanceSize` name, both in their upper-case enum-key form. -/
structure InstanceTypeModel where
  family : String
  size : String
deriving Repr, DecidableEq

/-- Enum keys of `ec2.InstanceClass` (the families the shape catalog
recognizes; the catalog itself lives in aws-cdk-lib). -/
def instanceClassCatalog : List String :=
  ["T2", "T3", "T3A", "T4G", "M4", "M5", "M5A", "M6I", "C4", "C5", "C5N",
   "C6I", "R4", "R5", "R5A", "R6I", "X1", "G4DN", "P3"]

/-- Enum keys of `ec2.InstanceSize`. -/
def instanceSizeCatalog : List String :=
  ["NANO", "MICRO", "SMALL", "MEDIUM", "LARGE", "XLARGE", "XLARGE2",
   "XLARGE4", "XLARGE8", "XLARGE12", "XLARGE16", "XLARGE24", "METAL"]

/-- The hardcoded safe default shape
`ec2.InstanceType.of(InstanceClass.T3, InstanceSize.MEDIUM)`. -/
def defaultInstanceType : InstanceTypeModel := ⟨"T3", "MEDIUM"⟩

/-- Model of `raw.split('.')` on a character list: split into the maximal runs
between dots, keeping empty runs (JS `"".split('.')` is `[""]`,
`".".split('.')` is `["", ""]`). -/
def splitDotChars (cs : List Char) : List (List Char) :=
  match cs with
  | [] => [[]]
  | c :: rest =>
    if c = '.' then [] :: splitDotChars rest
    else
      match splitDotChars rest with
      | [] => [[c]]
      | h :: t => (c :: h) :: t

/-- Model of `raw.split('.')` as a list of strings. -/
def splitDot (s : String) : List String :=
  (splitDotChars s.data).map (fun l => ⟨l⟩)

/-- Model of `ec2.InstanceType.of` applied to the catalog lookups
`InstanceClass[family.toUpperCase()]` / `InstanceSize[size.toUpperCase()]`;
`none` models the exception the `try` block catches — in particular the
`TypeError` of `size.toUpperCase()` when the split produced no second token
(the second argument is `none`), and a failed catalog lookup per the shape
catalog's contract. -/
def instanceTypeOf (family? : Option String) (size? : Option String) :
    Option InstanceTypeModel :=
  match family?, size? with
  | some f, some s =>
    if instanceClassCatalog.contains (toUpperStr f) ∧
        instanceSizeCatalog.contains (toUpperStr s) then
      some ⟨toUpperStr f, toUpperStr s⟩
    else none
  | _, _ => none

/-- Helper `parseInstanceType(raw)` from the source:
`const [family, size] = raw.split('.')` binds the first two tokens of the
split (ignoring any further tokens), and the `catch` returns the default
shape when the lookup fails. -/
def parseInstanceType (raw : String) : InstanceTypeModel :=
  let parts := splitDot raw
  match instanceTypeOf (parts.get? 0) (parts.get? 1) with
  | some t => t
  | none => defaultInstanceType

/-- Section 0 of the constructor: the typed projection of the parameter set
(one local `const` per recognized option, in source order). -/
structure ResolvedConfig where
  natGateways : Int
  instanceType : InstanceTypeModel
  sshAllowedIp : String
  ec2KeyPairName : String
  sapApiHostIp : Option String
  sapApiPort : Int
  cgwPublicIp : String
  cgwBgpAsn : Int
  vpnPsk : String
  remoteNetworkCidr : String
  enableRds : Bool
  dbName : String
  dbAdminUser : String
  dbRetain : Bool
  enableRoute53 : Bool
  hostedZoneDomain : Option String
  createApexARecord : Bool
  createWwwARecord : Bool
deriving Repr, DecidableEq

/-- The `const NAME = env(...)/envBool(...)/envInt(...)` block at the top of
`JordanAwsStack`'s constructor; the five `env` calls without fallback are
the ones that can throw `missingParameter`. -/
def resolveConfig (p : Params) : Except StackError ResolvedConfig :=
  match env p "SSH_ALLOWED_IP" none with
  | .error e => .error e
  | .ok sshAllowedIp =>
  match env p "EC2_KEY_PAIR_NAME" none with
  | .error e => .error e
  | .ok ec2KeyPairName =>
  match env p "CGW_PUBLIC_IP" none with
  | .error e => .error e
  | .ok cgwPublicIp =>
  match env p "VPN_PRESHARED_KEY" none with
  | .error e => .error e
  | .ok vpnPsk =>
  match env p "REMOTE_NETWORK_CIDR" none with
  | .error e => .error e
  | .ok remoteNetworkCidr =>
  .ok
    { natGateways := envInt p "NAT_GATEWAYS" 1
      instanceType :=
        parseInstanceType ((getEnv p "EC2_INSTANCE_TYPE").getD "t3.medium")
      sshAllowedIp := sshAllowedIp
      ec2KeyPairName := ec2KeyPairName
      sapApiHostIp := getEnv p "SAP_API_HOST_IP"
      sapApiPort := envInt p "SAP_API_PORT" 50000
      cgwPublicIp := cgwPublicIp
      cgwBgpAsn := envInt p "CGW_BGP_ASN" 65000
      vpnPsk := vpnPsk
      remoteNetworkCidr := remoteNetworkCidr
      enableRds := envBool p "ENABLE_RDS" true
      dbName := (getEnv p "DB_NAME").getD "appdb"
      dbAdminUser := (getEnv p "DB_ADMIN_USER").getD "dbadmin"
      dbRetain := envBool p "DB_RETAIN" false
      enableRoute53 := envBool p "ENABLE_ROUTE53" false
      hostedZoneDomain := getEnv p "HOSTED_ZONE_DOMAIN"
      createApexARecord := envBool p "CREATE_APEX_A_RECORD" true
      createWwwARecord := envBool p "CREATE_WWW_A_RECORD" true }

/-- A traffic source or destination of a security-group rule. -/
inductive PeerModel where
  | anyIpv4
  | ipv4 (cidr : String)
  | securityGroup (sgId : String)
deriving Repr, DecidableEq

/-- An `ec2.Port` value as used by the stack. -/
inductive PortModel where
  | tcp (port : Int)
  | udp (port : Int)
  | allIcmp
deriving Repr, DecidableEq

/-- One ingress or egress rule added via `addIngressRule`/`addEgressRule`. -/
structure SGRule where
  peer : PeerModel
  port : PortModel
  descr : String
deriving Repr, DecidableEq

/-- A security group together with the rules added to it, in call order. -/
structure SecurityGroupModel where
  description : String
  allowAllOutbound : Bool
  ingress : List SGRule
  egress : List SGRule
deriving Repr, DecidableEq

/-- Model of `sg.addIngressRule(peer, port, descr)`. -/
def addIngressRule (sg : SecurityGroupModel) (peer : PeerModel)
    (port : PortModel) (descr : String) : SecurityGroupModel :=
  { sg with ingress := sg.ingress ++ [⟨peer, port, descr⟩] }

/-- Model of `sg.addEgressRule(peer, port, descr)`. -/
def addEgressRule (sg : SecurityGroupModel) (peer : PeerModel)
    (port : PortModel) (descr : String) : SecurityGroupModel :=
  { sg with egress := sg.egress ++ [⟨peer, port, descr⟩] }

/-- Section 2 of the constructor: the `WebServerSG` security group with its
three ingress rules, four unconditional egress rules, and the conditional
SAP/API egress rule guarded by `(SAP_API_HOST_IP ?? '').trim() !== ''`. -/
def buildWebSG (c : ResolvedConfig) : SecurityGroupModel :=
  let sg0 : SecurityGroupModel :=
    { description := "HTTP/HTTPS públicos, SSH restringido, egress explícito"
      allowAllOutbound := false
      ingress := []
      egress := [] }
  let sg1 := addIngressRule sg0 .anyIpv4 (.tcp 80) "HTTP público"
  let sg2 := addIngressRule sg1 .anyIpv4 (.tcp 443) "HTTPS público"
  let sg3 := addIngressRule sg2 (.ipv4 c.sshAllowedIp) (.tcp 22)
    "SSH desde IP permitida"
  let sg4 := addEgressRule sg3 .anyIpv4 (.udp 53) "DNS saliente (UDP 53)"
  let sg5 := addEgressRule sg4 .anyIpv4 (.tcp 80) "HTTP saliente"
  let sg6 := addEgressRule sg5 .anyIpv4 (.tcp 443) "HTTPS saliente"
  let sg7 := addEgressRule sg6 .anyIpv4 .allIcmp "ICMP saliente (ping)"
  if trimStr (c.sapApiHostIp.getD "") ≠ "" then
    addEgressRule sg7 (.ipv4 (trimStr ((c.sapApiHostIp.getD ""))))
      (.tcp c.sapApiPort) "Salida a SAP/API"
  else sg7

/-- Section 1 of the constructor: the `ec2.Vpc` construct's properties. -/
structure VpcModel where
  maxAzs : Nat
  natGateways : Int
  publicSubnetCidrMask : Nat
  privateSubnetCidrMask : Nat
  vpnGateway : Bool
deriving Repr, DecidableEq

/-- The `HybridCloudVPC` properties: `maxAzs: 2` is a literal, the NAT
gateway count comes straight from `NAT_GATEWAYS`. -/
def buildVpc (c : ResolvedConfig) : VpcModel :=
  { maxAzs := 2
    natGateways := c.natGateways
    publicSubnetCidrMask := 24
    privateSubnetCidrMask := 24
    vpnGateway := true }

/-- One entry of `vpnTunnelOptionsSpecifications`. -/
structure TunnelOptions where
  preSharedKey : String
  ikeVersion : String
  phase1Encryption : String
  phase1Integrity : String
  phase1DhGroup : Nat
  phase1LifetimeSeconds : Nat
  phase2Encryption : String
  phase2Integrity : String
  phase2DhGroup : Nat
  phase2LifetimeSeconds : Nat
deriving Repr, DecidableEq

/-- The fixed cryptographic profile both tunnel entries carry. -/
def tunnelProfile (psk : String) : TunnelOptions :=
  ⟨psk, "ikev2", "AES256", "SHA2-256", 14, 28800, "AES256", "SHA2-256", 14,
    3600⟩

/-- Section 4 of the constructor: customer gateway, VPN connection and the
static route. -/
structure ConnectivityModel where
  cgwType : String
  cgwIpAddress : String
  cgwBgpAsn : Int
  vpnType : String
  staticRoutesOnly : Bool
  tunnels : List TunnelOptions
  routeDestinationCidr : String
deriving Repr, DecidableEq

/-- The `CustomerGateway`, `SiteToSiteVpn` and `VpnStaticRoute` constructs. -/
def buildConnectivity (c : ResolvedConfig) : ConnectivityModel :=
  { cgwType := "ipsec.1"
    cgwIpAddress := c.cgwPublicIp
    cgwBgpAsn := c.cgwBgpAsn
    vpnType := "ipsec.1"
    staticRoutesOnly := true
    tunnels := [tunnelProfile c.vpnPsk, tunnelProfile c.vpnPsk]
    routeDestinationCidr := c.remoteNetworkCidr }

/-- Model of `cdk.RemovalPolicy`. -/
inductive RemovalPolicyModel where
  | retain
  | destroy
deriving Repr, DecidableEq

/-- Section 5 of the constructor: the optional RDS group — the `DbSG`
security group plus the `MariaDB` database instance's properties. -/
structure RdsModel where
  dbSG : SecurityGroupModel
  engineVersion : String
  databaseName : String
  adminUser : String
  allocatedStorage : Nat
  removalPolicy : RemovalPolicyModel
  deleteAutomatedBackups : Bool
  backupRetentionDays : Nat
  secretName : Option String
deriving Repr, DecidableEq

/-- Symbolic identity handle of the `WebServerSG` construct, used where the
source passes `webSG` itself as a rule peer. -/
def webSGId : String := "WebServerSG"

/-- The RDS group, built iff `ENABLE_RDS`.  `dbSecret` is the generated
credential reference supplied by the external secret layer
(`db.secret?.secretName`); `none` models an absent secret. -/
def buildRds (c : ResolvedConfig) (dbSecret : Option String) :
    Option RdsModel :=
  if c.enableRds then
    let dbSG0 : SecurityGroupModel :=
      { description := "Acceso MariaDB solo desde WebServer"
        allowAllOutbound := true
        ingress := []
        egress := [] }
    let dbSG := addIngressRule dbSG0 (.securityGroup webSGId) (.tcp 3306)
      "MariaDB desde WebServer"
    some
      { dbSG := dbSG
        engineVersion := "10.6"
        databaseName := c.dbName
        adminUser := c.dbAdminUser
        allocatedStorage := 20
        removalPolicy := if c.dbRetain then .retain else .destroy
        deleteAutomatedBackups := !c.dbRetain
        backupRetentionDays := if c.dbRetain then 7 else 0
        secretName := dbSecret }
  else none

/-- Symbolic value of `vpc.vpcId`. -/
def vpcIdRef : String := "HybridCloudVPC.vpcId"

/-- Symbolic value of `eip.ref`. -/
def eipRef : String := "WebServerEip.ref"

/-- Symbolic value of `webServer.instanceId`. -/
def webServerInstanceIdRef : String := "WebServer.instanceId"

/-- Symbolic value of `cgw.ref`. -/
def cgwRef : String := "CustomerGateway.ref"

/-- Symbolic value of `vpn.ref`. -/
def vpnRef : String := "SiteToSiteVpn.ref"

/-- Symbolic value of `db.dbInstanceEndpointAddress`. -/
def dbEndpointRef : String := "MariaDB.dbInstanceEndpointAddress"

/-- Section 6 of the constructor: the `CfnOutput` set, in emission order.
`dbSecret` is `db.secret?.secretName`; the source lowers it to
`dbSecretName = db.secret?.secretName ?? ''` and emits
`dbSecretName || 'No Secret Name'` (the empty string is falsy). -/
def stackOutputs (c : ResolvedConfig) (dbSecret : Option String) :
    List (String × String) :=
  let dbSecretName := dbSecret.getD ""
  [("VpcId", vpcIdRef),
   ("PublicElasticIp", eipRef),
   ("WebServerInstanceId", webServerInstanceIdRef),
   ("WebServerSecurityGroupId", webSGId),
   ("CustomerGatewayId", cgwRef),
   ("VpnConnectionId", vpnRef)] ++
  (if c.enableRds then
    [("DBEndpointAddress", dbEndpointRef),
     ("DBSecretName",
       if dbSecretName = "" then "No Secret Name" else dbSecretName)]
  else [])

/-- One resource of the Route 53 section, in creation order. -/
inductive NamingResource where
  | zoneLookup (domainName : String)
  | aRecord (recordName : String) (targetIp : String) (ttlMinutes : Nat)
deriving Repr, DecidableEq

/-- The error message of the flag-gated domain check. -/
def route53Msg : String :=
  "ENABLE_ROUTE53=true requiere HOSTED_ZONE_DOMAIN en .env"

/-- Section 7 of the constructor: the optional Route 53 group.  When the
flag is set, `!HOSTED_ZONE_DOMAIN` (absent or empty) throws before the zone
lookup or any A record is created; otherwise the zone lookup and the two
independently toggled A records are produced in order. -/
def buildNaming (c : ResolvedConfig) : Except StackError (List NamingResource) :=
  if c.enableRoute53 then
    match c.hostedZoneDomain with
    | none => .error (.invalidConfiguration route53Msg)
    | some d =>
      if d = "" then .error (.invalidConfiguration route53Msg)
      else
        .ok ([NamingResource.zoneLookup d] ++
          (if c.createApexARecord then [NamingResource.aRecord d eipRef 1]
           else []) ++
          (if c.createWwwARecord then
            [NamingResource.aRecord ("www." ++ d) eipRef 1]
           else []))
  else .ok []

/-- The assembled stack: every construct of sections 1–7 of the
constructor. -/
structure StackModel where
  vpc : VpcModel
  webSG : SecurityGroupModel
  instanceType : InstanceTypeModel
  keyName : String
  connectivity : ConnectivityModel
  rds : Option RdsModel
  outputs : List (String × String)
  naming : List NamingResource
deriving Repr, DecidableEq

/-- Sections 1–7 given a resolved configuration: everything is total except
the Route 53 domain check. -/
def assembleStack (c : ResolvedConfig) (dbSecret : Option String) :
    Except StackError StackModel :=
  match buildNaming c with
  | .error e => .error e
  | .ok naming =>
    .ok
      { vpc := buildVpc c
        webSG := buildWebSG c
        instanceType := c.instanceType
        keyName := c.ec2KeyPairName
        connectivity := buildConnectivity c
        rds := buildRds c dbSecret
        outputs := stackOutputs c dbSecret
        naming := naming }

/-- The whole constructor `JordanAwsStack(scope, id, props)`: resolve the
parameters (section 0), then assemble the resource graph (sections 1–7). -/
def buildStack (p : Params) (dbSecret : Option String) :
    Except StackError StackModel :=
  match resolveConfig p with
  | .error e => .error e
  | .ok c => assembleStack c dbSecret

/-- The five options resolved through `env` with no fallback — the required
string options of the schema. -/
def requiredStringOptions : List String :=
  ["SSH_ALLOWED_IP", "EC2_KEY_PAIR_NAME", "CGW_PUBLIC_IP",
   "VPN_PRESHARED_KEY", "REMOTE_NETWORK_CIDR"]

/-- A minimal well-formed parameter set (the §8 example input). -/
def paramsBase : Params :=
  [("SSH_ALLOWED_IP", "203.0.113.10/32"),
   ("EC2_KEY_PAIR_NAME", "k1"),
   ("CGW_PUBLIC_IP", "198.51.100.20"),
   ("VPN_PRESHARED_KEY", "secret"),
   ("REMOTE_NETWORK_CIDR", "10.1.0.0/16")]

/-- The configuration `paramsBase` resolves to. -/
def cfgBase : ResolvedConfig :=
  { natGateways := 1
    instanceType := ⟨"T3", "MEDIUM"⟩
    sshAllowedIp := "203.0.113.10/32"
    ec2KeyPairName := "k1"
    sapApiHostIp := none
    sapApiPort := 50000
    cgwPublicIp := "198.51.100.20"
    cgwBgpAsn := 65000
    vpnPsk := "secret"
    remoteNetworkCidr := "10.1.0.0/16"
    enableRds := true
    dbName := "appdb"
    dbAdminUser := "dbadmin"
    dbRetain := false
    enableRoute53 := false
    hostedZoneDomain := none
    createApexARecord := true
    createWwwARecord := true }

/-- The set `paramsBase` plus the naming flag, with no root domain. -/
def paramsNamingOn : Params := paramsBase ++ [("ENABLE_ROUTE53", "true")]

/-- The configuration `paramsNamingOn` resolves to. -/
def cfgNamingOn : ResolvedConfig := { cfgBase with enableRoute53 := true }

/-- The set `paramsBase` plus an explicitly empty storage flag. -/
def paramsRdsEmpty : Params := paramsBase ++ [("ENABLE_RDS", "")]

/-- The configuration `paramsRdsEmpty` resolves to. -/
def cfgRdsEmpty : ResolvedConfig := { cfgBase with enableRds := false }

/-- The set `paramsBase` with the NAT gateway count set to zero. -/
def paramsNatZero : Params := paramsBase ++ [("NAT_GATEWAYS", "0")]

/-- The configuration `paramsNatZero` resolves to. -/
def cfgNatZero : ResolvedConfig := { cfgBase with natGateways := 0 }

/-- The config `cfgBase` with a whitespace-only internal API host. -/
def cfgSapBlank : ResolvedConfig :=
  { cfgBase with sapApiHostIp := some "   " }

/-- The storage group `cfgBase` builds (no secret reference). -/
def rdsBase : RdsModel :=
  { dbSG :=
      { description := "Acceso MariaDB solo desde WebServer"
        allowAllOutbound := true
        ingress := [⟨.securityGroup webSGId, .tcp 3306,
          "MariaDB desde WebServer"⟩]
        egress := [] }
    engineVersion := "10.6"
    databaseName := "appdb"
    adminUser := "dbadmin"
    allocatedStorage := 20
    removalPolicy := .destroy
    deleteAutomatedBackups := true
    backupRetentionDays := 0
    secretName := none }

/-- Equality test on resolution results, used so that concrete runs can be
checked by evaluation (`Except` carries no `DecidableEq` instance of its
own). -/
def resolveEq (x : Except StackError ResolvedConfig)
    (y : Except StackError ResolvedConfig) : Bool :=
  match x, y with
  | .ok a, .ok b => a == b
  | .error a, .error b => a == b
  | _, _ => false

/-- The test `resolveEq` is sound for propositional equality. -/
theorem resolveEq_sound (x y : Except StackError ResolvedConfig)
    (h : resolveEq x y = true) : x = y := by
  cases x <;> cases y <;> simp [resolveEq] at h <;> simp [h]

/-- Inversion of `resolveConfig`: a successful resolution pins every field
of the configuration to its helper call, and records that each of the five
required options resolved. -/
theorem resolveConfig_ok_fields (p : Params) (c : ResolvedConfig)
    (h : resolveConfig p = .ok c) :
    env p "SSH_ALLOWED_IP" none = .ok c.sshAllowedIp ∧
    env p "EC2_KEY_PAIR_NAME" none = .ok c.ec2KeyPairName ∧
    env p "CGW_PUBLIC_IP" none = .ok c.cgwPublicIp ∧
    env p "VPN_PRESHARED_KEY" none = .ok c.vpnPsk ∧
    env p "REMOTE_NETWORK_CIDR" none = .ok c.remoteNetworkCidr ∧
    c.natGateways = envInt p "NAT_GATEWAYS" 1 ∧
    c.instanceType =
      parseInstanceType ((getEnv p "EC2_INSTANCE_TYPE").getD "t3.medium") ∧
    c.sapApiHostIp = getEnv p "SAP_API_HOST_IP" ∧
    c.sapApiPort = envInt p "SAP_API_PORT" 50000 ∧
    c.cgwBgpAsn = envInt p "CGW_BGP_ASN" 65000 ∧
    c.enableRds = envBool p "ENABLE_RDS" true ∧
    c.dbName = (getEnv p "DB_NAME").getD "appdb" ∧
    c.dbAdminUser = (getEnv p "DB_ADMIN_USER").getD "dbadmin" ∧
    c.dbRetain = envBool p "DB_RETAIN" false ∧
    c.enableRoute53 = envBool p "ENABLE_ROUTE53" false ∧
    c.hostedZoneDomain = getEnv p "HOSTED_ZONE_DOMAIN" ∧
    c.createApexARecord = envBool p "CREATE_APEX_A_RECORD" true ∧
    c.createWwwARecord = envBool p "CREATE_WWW_A_RECORD" true := by
  unfold resolveConfig at h
  repeat' split at h
  all_goals try exact (Except.noConfusion h)
  injection h with h
  subst h
  simp_all

/-- C1: if the naming feature flag resolves to enabled and the root domain
parameter is absent, the run fails with `InvalidConfiguration` and the
naming builder produces no resource (it errors before the zone lookup or
any address record); if the flag resolves to disabled, the absent root
domain causes no error — the run succeeds with an empty naming group. -/
theorem naming_flag_gates_root_domain (p : Params) (dbSecret : Option String)
    (c : ResolvedConfig) (hres : resolveConfig p = .ok c)
    (hd : getEnv p "HOSTED_ZONE_DOMAIN" = none) :
    (envBool p "ENABLE_ROUTE53" false = true →
      buildStack p dbSecret = .error (.invalidConfiguration route53Msg) ∧
      buildNaming c = .error (.invalidConfiguration route53Msg)) ∧
    (envBool p "ENABLE_ROUTE53" false = false →
      ∃ s, buildStack p dbSecret = .ok s ∧ s.naming = []) := by
  have hf := resolveConfig_ok_fields p c hres
  have hflag : c.enableRoute53 = envBool p "ENABLE_ROUTE53" false :=
    hf.2.2.2.2.2.2.2.2.2.2.2.2.2.2.1
  have hdom : c.hostedZoneDomain = getEnv p "HOSTED_ZONE_DOMAIN" :=
    hf.2.2.2.2.2.2.2.2.2.2.2.2.2.2.2.1
  constructor
  · intro he
    have hnam : buildNaming c = .error (.invalidConfiguration route53Msg) := by
      simp [buildNaming, hflag, he, hdom, hd]
    refine ⟨?_, hnam⟩
    simp [buildStack, hres, assembleStack, hnam]
  · intro he
    have hnam : buildNaming c = .ok [] := by
      simp [buildNaming, hflag, he]
    have hb : buildStack p dbSecret = .ok
        { vpc := buildVpc c
          webSG := buildWebSG c
          instanceType := c.instanceType
          keyName := c.ec2KeyPairName
          connectivity := buildConnectivity c
          rds := buildRds c dbSecret
          outputs := stackOutputs c dbSecret
          naming := [] } := by
      simp [buildStack, hres, assembleStack, hnam]
    exact ⟨_, hb, rfl⟩

/-- Witness for C1: enabling the naming flag on the §8 example input with
no root domain makes the run fail with `InvalidConfiguration`. -/
theorem naming_flag_gates_root_domain_witness :
    buildStack paramsNamingOn none =
      .error (.invalidConfiguration route53Msg) :=
  ((naming_flag_gates_root_domain paramsNamingOn none cfgNamingOn
    (resolveEq_sound _ _ (by decide)) (by decide)).1 (by decide)).1

/-- C2: each required string option (operator SSH source address, compute
key-pair reference, peer gateway public address, shared tunnel secret,
remote network prefix) fails resolution with `MissingParameter` naming that
option when absent or empty, resolves to the value unchanged when present
and non-empty, and its failure prevents any successful run. -/
theorem required_string_option_resolution (p : Params) (n : String)
    (hn : n ∈ requiredStringOptions) :
    ((getEnv p n = none ∨ getEnv p n = some "") →
      env p n none = .error (.missingParameter n)) ∧
    (∀ v, getEnv p n = some v → v ≠ "" → env p n none = .ok v) ∧
    ((getEnv p n = none ∨ getEnv p n = some "") →
      ∀ c, resolveConfig p ≠ .ok c) := by
  have henv : (getEnv p n = none ∨ getEnv p n = some "") →
      env p n none = .error (.missingParameter n) := by
    intro h
    rcases h with h | h <;> simp [env, h]
  refine ⟨henv, ?_, ?_⟩
  · intro v hv hne
    simp [env, hv, hne]
  · intro h c hok
    have hf := resolveConfig_ok_fields p c hok
    have herr := henv h
    simp only [requiredStringOptions, List.mem_cons, List.not_mem_nil,
      or_false] at hn
    rcases hn with rfl | rfl | rfl | rfl | rfl
    · rw [hf.1] at herr; exact Except.noConfusion herr
    · rw [hf.2.1] at herr; exact Except.noConfusion herr
    · rw [hf.2.2.1] at herr; exact Except.noConfusion herr
    · rw [hf.2.2.2.1] at herr; exact Except.noConfusion herr
    · rw [hf.2.2.2.2.1] at herr; exact Except.noConfusion herr

/-- Witness for C2: on the empty parameter set, the SSH source option fails
with `MissingParameter` naming it. -/
theorem required_string_option_resolution_witness :
    env [] "SSH_ALLOWED_IP" none =
      .error (.missingParameter "SSH_ALLOWED_IP") :=
  (required_string_option_resolution [] "SSH_ALLOWED_IP" (by decide)).1
    (Or.inl rfl)

/-- C3: whenever the storage group is built, the deletion policy and the
backup-window length are consistent functions of the single retention flag:
retention on gives retain and a 7-day window, retention off gives destroy
and a 0-day window, and the two switches are never set inconsistently. -/
theorem storage_retention_switches_consistent (c : ResolvedConfig)
    (dbSecret : Option String) (r : RdsModel)
    (h : buildRds c dbSecret = some r) :
    (c.dbRetain = true →
      r.removalPolicy = .retain ∧ r.backupRetentionDays = 7) ∧
    (c.dbRetain = false →
      r.removalPolicy = .destroy ∧ r.backupRetentionDays = 0) ∧
    (r.removalPolicy = .retain ↔ r.backupRetentionDays = 7) ∧
    (r.removalPolicy = .destroy ↔ r.backupRetentionDays = 0) := by
  unfold buildRds at h
  split at h
  · cases hret : c.dbRetain <;>
      simp only [hret, Bool.not_false, Bool.not_true, if_true, if_false,
        Option.some.injEq] at h <;>
      subst h <;> simp
  · exact Option.noConfusion h

/-- Witness for C3: with the default retention flag (off), the built storage
group uses the destroy policy and a 0-day backup window. -/
theorem storage_retention_switches_consistent_witness :
    rdsBase.removalPolicy = .destroy ∧ rdsBase.backupRetentionDays = 0 := by
  have h : buildRds cfgBase none = some rdsBase := by
    simp [buildRds, cfgBase, addIngressRule, rdsBase]
  exact (storage_retention_switches_consistent cfgBase none rdsBase h).2.1
    rfl

/-- C4: when the storage group is disabled, the output set is exactly the
six always-on bindings — the storage bindings are omitted entirely, never
emitted empty; when the storage group is enabled but the generated secret
reference is absent (or empty), the database-secret-name binding is still
emitted, bound to the literal sentinel `"No Secret Name"`; a present
non-empty reference is emitted unchanged. -/
theorem disabled_group_outputs_omitted (c : ResolvedConfig)
    (dbSecret : Option String) :
    (c.enableRds = false →
      buildRds c dbSecret = none ∧
      stackOutputs c dbSecret =
        [("VpcId", vpcIdRef),
         ("PublicElasticIp", eipRef),
         ("WebServerInstanceId", webServerInstanceIdRef),
         ("WebServerSecurityGroupId", webSGId),
         ("CustomerGatewayId", cgwRef),
         ("VpnConnectionId", vpnRef)] ∧
      ∀ kv ∈ stackOutputs c dbSecret,
        kv.1 ≠ "DBEndpointAddress" ∧ kv.1 ≠ "DBSecretName") ∧
    (c.enableRds = true → dbSecret.getD "" = "" →
      ("DBSecretName", "No Secret Name") ∈ stackOutputs c dbSecret) ∧
    (c.enableRds = true → ∀ s, dbSecret = some s → s ≠ "" →
      ("DBSecretName", s) ∈ stackOutputs c dbSecret) := by
  refine ⟨?_, ?_, ?_⟩
  · intro hoff
    refine ⟨by simp [buildRds, hoff], by simp [stackOutputs, hoff], ?_⟩
    intro kv hkv
    simp [stackOutputs, hoff] at hkv
    rcases hkv with h | h | h | h | h | h <;> subst h <;> simp
  · intro hon hsec
    simp [stackOutputs, hon, hsec]
  · intro hon s hs hne
    simp [stackOutputs, hon, hs, hne]

/-- Witness for C4: disabling storage omits both storage bindings, and
enabling it with an absent secret emits the sentinel binding. -/
theorem disabled_group_outputs_omitted_witness :
    stackOutputs cfgRdsEmpty none =
      [("VpcId", vpcIdRef),
       ("PublicElasticIp", eipRef),
       ("WebServerInstanceId", webServerInstanceIdRef),
       ("WebServerSecurityGroupId", webSGId),
       ("CustomerGatewayId", cgwRef),
       ("VpnConnectionId", vpnRef)] ∧
    ("DBSecretName", "No Secret Name") ∈ stackOutputs cfgBase none :=
  ⟨((disabled_group_outputs_omitted cfgRdsEmpty none).1 (by decide)).2.1,
   (disabled_group_outputs_omitted cfgBase none).2.1 (by decide) rfl⟩

/-- Counterexample to C5: on the §8 example configuration, the web security
group's ingress rule set is NOT just HTTP-to-any plus SSH-from-operator —
it also opens HTTPS (TCP 443) to any source. -/
theorem web_ingress_rules_counterexample :
    ¬ (∀ r ∈ (buildWebSG cfgBase).ingress,
        (r.peer = .anyIpv4 ∧ r.port = .tcp 80) ∨
        (r.peer = .ipv4 cfgBase.sshAllowedIp ∧ r.port = .tcp 22)) := by
  decide

/-- C5 amended: the compute firewall's ingress rule set consists of HTTP
open to any source, HTTPS open to any source, and SSH restricted to exactly
the one operator-supplied source address, and of no other ingress rules. -/
theorem web_ingress_rules (c : ResolvedConfig) :
    (buildWebSG c).ingress =
      [⟨.anyIpv4, .tcp 80, "HTTP público"⟩,
       ⟨.anyIpv4, .tcp 443, "HTTPS público"⟩,
       ⟨.ipv4 c.sshAllowedIp, .tcp 22, "SSH desde IP permitida"⟩] ∧
    (∀ r ∈ (buildWebSG c).ingress, r.port = .tcp 22 →
      r.peer = .ipv4 c.sshAllowedIp) := by
  have hi : (buildWebSG c).ingress =
      [⟨.anyIpv4, .tcp 80, "HTTP público"⟩,
       ⟨.anyIpv4, .tcp 443, "HTTPS público"⟩,
       ⟨.ipv4 c.sshAllowedIp, .tcp 22, "SSH desde IP permitida"⟩] := by
    unfold buildWebSG
    split <;> simp [addIngressRule, addEgressRule]
  refine ⟨hi, ?_⟩
  intro r hr hp
  rw [hi] at hr
  simp only [List.mem_cons, List.not_mem_nil, or_false] at hr
  rcases hr with rfl | rfl | rfl <;> simp_all

/-- Witness for C5 (amended): the concrete ingress list on the §8 example
configuration. -/
theorem web_ingress_rules_witness :
    (buildWebSG cfgBase).ingress =
      [⟨.anyIpv4, .tcp 80, "HTTP público"⟩,
       ⟨.anyIpv4, .tcp 443, "HTTPS público"⟩,
       ⟨.ipv4 "203.0.113.10/32", .tcp 22, "SSH desde IP permitida"⟩] :=
  (web_ingress_rules cfgBase).1

/-- Counterexample to C6: a resolvable configuration (`NAT_GATEWAYS=0` on
the §8 example input) yields a built network group with 0 NAT gateways —
the NAT-gateway count is not clamped to a floor of 1. -/
theorem vpc_sizing_counterexample :
    resolveConfig paramsNatZero = .ok cfgNatZero ∧
    (buildVpc cfgNatZero).natGateways = 0 ∧
    ¬ (1 ≤ (buildVpc cfgNatZero).natGateways) :=
  ⟨resolveEq_sound _ _ (by decide), by decide, by decide⟩

/-- C6 amended: the availability-domain count of the built network group is
the fixed constant 2 (not config-driven), and the NAT-gateway count is the
config-driven integer `NAT_GATEWAYS` (default 1) passed through with no
floor applied. -/
theorem vpc_sizing (p : Params) (c : ResolvedConfig)
    (h : resolveConfig p = .ok c) :
    (buildVpc c).maxAzs = 2 ∧
    (buildVpc c).natGateways = envInt p "NAT_GATEWAYS" 1 := by
  have hf := resolveConfig_ok_fields p c h
  exact ⟨rfl, hf.2.2.2.2.2.1⟩

/-- Witness for C6 (amended): on the §8 example input the VPC has 2
availability domains and the default single NAT gateway. -/
theorem vpc_sizing_witness :
    (buildVpc cfgBase).maxAzs = 2 ∧
    (buildVpc cfgBase).natGateways = envInt paramsBase "NAT_GATEWAYS" 1 :=
  vpc_sizing paramsBase cfgBase (resolveEq_sound _ _ (by decide))

/-- C7: the optional internal-API egress rule exists iff the host
parameter, after trimming whitespace, is non-empty; a present but empty or
whitespace-only host creates no rule (the builder is total, so no error is
raised) and yields exactly the security group of an absent host. -/
theorem sap_egress_iff_nonempty_host (c : ResolvedConfig) :
    ((∃ r ∈ (buildWebSG c).egress, r.descr = "Salida a SAP/API") ↔
      trimStr (c.sapApiHostIp.getD "") ≠ "") ∧
    (trimStr (c.sapApiHostIp.getD "") ≠ "" →
      ⟨.ipv4 (trimStr (c.sapApiHostIp.getD "")), .tcp c.sapApiPort,
        "Salida a SAP/API"⟩ ∈ (buildWebSG c).egress) ∧
    (trimStr (c.sapApiHostIp.getD "") = "" →
      buildWebSG c = buildWebSG { c with sapApiHostIp := none }) := by
  by_cases hc : trimStr (c.sapApiHostIp.getD "") = ""
  · refine ⟨?_, by simp [hc], ?_⟩
    · constructor
      · intro hex
        exfalso
        rcases hex with ⟨r, hr, hdescr⟩
        unfold buildWebSG at hr
        rw [if_neg (by simp [hc])] at hr
        simp [addIngressRule, addEgressRule] at hr
        rcases hr with rfl | rfl | rfl | rfl <;> simp at hdescr
      · intro hne
        exact absurd hc hne
    · intro _
      unfold buildWebSG
      rw [if_neg (by simp [hc]), if_neg (by simp [trimStr])]
  · refine ⟨?_, ?_, fun hceq => absurd hceq hc⟩
    · constructor
      · intro _
        exact hc
      · intro _
        refine ⟨⟨.ipv4 (trimStr (c.sapApiHostIp.getD "")),
          .tcp c.sapApiPort, "Salida a SAP/API"⟩, ?_, rfl⟩
        unfold buildWebSG
        rw [if_pos (by simp [hc])]
        simp [addIngressRule, addEgressRule]
    · intro _
      unfold buildWebSG
      rw [if_pos (by simp [hc])]
      simp [addIngressRule, addEgressRule]

/-- Witness for C7: a whitespace-only host value yields exactly the
security group of an absent host, and on the §8 example configuration
(absent host) no SAP egress rule exists. -/
theorem sap_egress_iff_nonempty_host_witness :
    buildWebSG cfgSapBlank = buildWebSG cfgBase ∧
    ¬ (∃ r ∈ (buildWebSG cfgBase).egress, r.descr = "Salida a SAP/API") := by
  constructor
  · have h := (sap_egress_iff_nonempty_host cfgSapBlank).2.2 (by decide)
    have hcfg : ({ cfgSapBlank with sapApiHostIp := none }
        : ResolvedConfig) = cfgBase := by decide
    rw [hcfg] at h
    exact h
  · intro hex
    exact absurd ((sap_egress_iff_nonempty_host cfgBase).1.mp hex)
      (by decide)

/-- Counterexample to C8: `"c5.large.x"` splits into three tokens, not
exactly two, yet resolution does NOT fall back to the safe default shape —
it resolves to C5.LARGE from the first two tokens. -/
theorem shape_descriptor_counterexample :
    (splitDot "c5.large.x").length = 3 ∧
    parseInstanceType "c5.large.x" = ⟨"C5", "LARGE"⟩ ∧
    parseInstanceType "c5.large.x" ≠ defaultInstanceType := by
  refine ⟨by decide, by decide, by decide⟩

/-- C8 amended: resolution reads only the first two tokens of the split: a
descriptor with no second token, or whose first or second token is
unrecognized by the shape catalog, resolves to the hardcoded safe default
shape without failing; a descriptor whose first two tokens are recognized
resolves to the shape they name, with any further tokens ignored. -/
theorem shape_descriptor_resolution (raw : String) :
    ((splitDot raw).length = 1 →
      parseInstanceType raw = defaultInstanceType) ∧
    (∀ f s rest, splitDot raw = f :: s :: rest →
      ((instanceClassCatalog.contains (toUpperStr f) = true ∧
          instanceSizeCatalog.contains (toUpperStr s) = true) →
        parseInstanceType raw = ⟨toUpperStr f, toUpperStr s⟩) ∧
      (¬ (instanceClassCatalog.contains (toUpperStr f) = true ∧
          instanceSizeCatalog.contains (toUpperStr s) = true) →
        parseInstanceType raw = defaultInstanceType)) := by
  constructor
  · intro hlen
    unfold parseInstanceType
    match hsplit : splitDot raw with
    | [] => simp [hsplit] at hlen
    | [x] => simp [hsplit, instanceTypeOf]
    | x :: y :: rest => simp [hsplit] at hlen
  · intro f s rest hsplit
    have hget : parseInstanceType raw =
        match instanceTypeOf (some f) (some s) with
        | some t => t
        | none => defaultInstanceType := by
      simp only [parseInstanceType]
      rw [hsplit]
      rfl
    have hof : instanceTypeOf (some f) (some s) =
        if instanceClassCatalog.contains (toUpperStr f) = true ∧
            instanceSizeCatalog.contains (toUpperStr s) = true then
          some ⟨toUpperStr f, toUpperStr s⟩
        else none := rfl
    constructor
    · intro hcat
      rw [hget, hof, if_pos hcat]
    · intro hcat
      rw [hget, hof, if_neg hcat]

/-- Witness for C8 (amended): the three-token descriptor resolves from its
first two tokens, and a one-token descriptor resolves to the default. -/
theorem shape_descriptor_resolution_witness :
    parseInstanceType "c5.large.x" = ⟨"C5", "LARGE"⟩ ∧
    parseInstanceType "t3" = defaultInstanceType := by
  constructor
  · have h := ((shape_descriptor_resolution "c5.large.x").2 "c5" "large"
      ["x"] (by decide)).1 (by decide)
    rw [h]
    decide
  · exact (shape_descriptor_resolution "t3").1 (by decide)

/-- A decimal digit is not whitespace. -/
theorem digit_not_whitespace (c : Char) (h : c.isDigit = true) :
    c.isWhitespace = false := by
  by_contra hw
  rw [Bool.not_eq_false] at hw
  simp only [Char.isWhitespace, Bool.or_eq_true, decide_eq_true_eq] at hw
  rcases hw with ((rfl | rfl) | rfl) | rfl <;> exact absurd h (by decide)

/-- On a string the spec deems parseable as an integer, JS `parseInt`
returns exactly the integer it denotes. -/
theorem parseIntJS_spec_integer (v : String)
    (h : specIntegerString v = true) :
    parseIntJS v = some (specIntegerValue v) := by
  rcases hv : v.data with _ | ⟨c, r⟩
  · exfalso
    rw [specIntegerString, specIntegerDigits, hv] at h
    simp at h
  · by_cases hp : c = '+'
    · subst hp
      have hd : specIntegerDigits v = r := by
        simp [specIntegerDigits, hv]
      rw [specIntegerString, hd] at h
      simp only [Bool.and_eq_true, Bool.not_eq_true'] at h
      obtain ⟨hne, hall⟩ := h
      have hw : Char.isWhitespace '+' = false := by decide
      have hcs : List.dropWhile Char.isWhitespace ('+' :: r) = '+' :: r := by
        rw [List.dropWhile_cons, hw]
        simp
      have ht : r.takeWhile Char.isDigit = r :=
        List.takeWhile_eq_self_iff.mpr (List.all_eq_true.mp hall)
      simp only [parseIntJS, specIntegerValue, hcs, hv, hd,
        List.head?_cons, List.tail_cons]
      simp [hne, ht]
    · by_cases hm : c = '-'
      · subst hm
        have hd : specIntegerDigits v = r := by
          simp [specIntegerDigits, hv]
        rw [specIntegerString, hd] at h
        simp only [Bool.and_eq_true, Bool.not_eq_true'] at h
        obtain ⟨hne, hall⟩ := h
        have hw : Char.isWhitespace '-' = false := by decide
        have hcs : List.dropWhile Char.isWhitespace ('-' :: r) = '-' :: r := by
          rw [List.dropWhile_cons, hw]
          simp
        have ht : r.takeWhile Char.isDigit = r :=
          List.takeWhile_eq_self_iff.mpr (List.all_eq_true.mp hall)
        simp only [parseIntJS, specIntegerValue, hcs, hv, hd,
          List.head?_cons, List.tail_cons]
        simp [hne, ht]
      · have hd : specIntegerDigits v = c :: r := by
          simp [specIntegerDigits, hv, hp, hm]
        rw [specIntegerString, hd] at h
        simp only [Bool.and_eq_true, Bool.not_eq_true'] at h
        obtain ⟨hne, hall⟩ := h
        have hallmem := List.all_eq_true.mp hall
        have hcdig : c.isDigit = true := hallmem c (List.mem_cons_self c r)
        have hcs : List.dropWhile Char.isWhitespace (c :: r) = c :: r := by
          rw [List.dropWhile_cons, digit_not_whitespace c hcdig]
          simp
        have ht : (c :: r).takeWhile Char.isDigit = c :: r :=
          List.takeWhile_eq_self_iff.mpr hallmem
        simp only [parseIntJS, specIntegerValue, hcs, hv, hd,
          List.head?_cons]
        simp [hp, hm, hne, ht]

/-- Counterexample to C9: `"12abc"` is not parseable as an integer, yet the
int option resolves it to 12 — not to the declared default 50000 as the
claim requires. -/
theorem int_option_counterexample :
    specIntegerString "12abc" = false ∧
    envInt [("SAP_API_PORT", "12abc")] "SAP_API_PORT" 50000 = 12 :=
  ⟨by decide, by decide⟩

/-- C9 amended: an absent int option resolves to the declared default; a
present value goes through JS `parseInt` — when that yields NaN the option
silently resolves to the default with no error, otherwise to the parsed
leading integer; in particular an integer-shaped value resolves to the
integer it denotes, but a non-integer value with a digit prefix resolves
to that prefix rather than the default. -/
theorem int_option_resolution (p : Params) (n : String) (d : Int) :
    (getEnv p n = none → envInt p n d = d) ∧
    (∀ v, getEnv p n = some v → parseIntJS v = none → envInt p n d = d) ∧
    (∀ v k, getEnv p n = some v → parseIntJS v = some k →
      envInt p n d = k) ∧
    (∀ v, getEnv p n = some v → specIntegerString v = true →
      envInt p n d = specIntegerValue v) := by
  refine ⟨fun h => by simp [envInt, h],
    fun v hv hn => by simp [envInt, hv, hn],
    fun v k hv hk => by simp [envInt, hv, hk],
    fun v hv hs => by simp [envInt, hv, parseIntJS_spec_integer v hs]⟩

/-- Witness for C9 (amended): a well-formed integer resolves to itself,
an absent value resolves to the default. -/
theorem int_option_resolution_witness :
    envInt [("CGW_BGP_ASN", "65010")] "CGW_BGP_ASN" 65000 = 65010 ∧
    envInt [] "CGW_BGP_ASN" 65000 = 65000 := by
  constructor
  · have h := (int_option_resolution [("CGW_BGP_ASN", "65010")]
      "CGW_BGP_ASN" 65000).2.2.2 "65010" rfl (by decide)
    rw [h]
    decide
  · exact (int_option_resolution [] "CGW_BGP_ASN" 65000).1 rfl

/-- C10: a bool option whose value is present but equal to the empty string
resolves to `false` regardless of the declared default — the empty string
is a present, non-truthy token, not an absent value.  In particular an
empty `ENABLE_RDS` disables the storage group (no RDS resources, default
`true` notwithstanding). -/
theorem bool_option_empty_string (p : Params) (n : String) (d : Bool)
    (h : getEnv p n = some "") :
    envBool p n d = false ∧
    (n = "ENABLE_RDS" →
      ∀ c dbSecret, resolveConfig p = .ok c →
        c.enableRds = false ∧ buildRds c dbSecret = none) := by
  have hb : envBool p n d = false := by
    simp [envBool, h, toLowerStr]
  refine ⟨hb, ?_⟩
  rintro rfl c dbSecret hres
  have hf := resolveConfig_ok_fields p c hres
  have hb2 : envBool p "ENABLE_RDS" true = false := by
    simp [envBool, h, toLowerStr]
  have hrds : c.enableRds = false :=
    hf.2.2.2.2.2.2.2.2.2.2.1.trans hb2
  exact ⟨hrds, by simp [buildRds, hrds]⟩

/-- Witness for C10: `ENABLE_RDS=""` on the §8 example input resolves the
flag to false and builds no storage group. -/
theorem bool_option_empty_string_witness :
    envBool paramsRdsEmpty "ENABLE_RDS" true = false ∧
    buildRds cfgRdsEmpty none = none := by
  have h := bool_option_empty_string paramsRdsEmpty "ENABLE_RDS" true
    (by decide)
  exact ⟨h.1,
    (h.2 rfl cfgRdsEmpty none (resolveEq_sound _ _ (by decide))).2⟩

end HybridStack
